import Mathlib

/-!
Shallow embedding of the contacts service (src/contacts/contacts.py):
token extraction, identity binding, payload sanitization, contact
validation, business-rule enforcement and the two request handlers.
Python values arriving from a JSON body are modelled by `PyVal`,
Python exceptions relevant to the handlers by `PyExn`, and the
handlers return an `Outcome` (an HTTP response or an uncaught
exception) together with the list of contacts handed to the store.
-/

deriving instance DecidableEq for Except

namespace Contacts

/-- A JSON-decoded Python value as it can appear in a request body or
in a decoded token claim: null, bool, int, string, or list. -/
inductive PyVal where
  | none
  | bool (b : Bool)
  | int (n : Int)
  | str (s : String)
  deriving DecidableEq, Repr

/-- Python truthiness of a value, as used by the bare *if v* test. -/
def truthy : PyVal → Bool
  | PyVal.none => false
  | PyVal.bool b => b
  | PyVal.int n => n != 0
  | PyVal.str s => s != ""

/-- Key lookup in a JSON object modelled as an association list. -/
def lookup : List (String × PyVal) → String → Option PyVal
  | [], _ => Option.none
  | (k2, v) :: rest, k => if k2 = k then Option.some v else lookup rest k

/-- Membership test for a key, Python *k in req*. -/
def containsKey (req : List (String × PyVal)) (k : String) : Bool :=
  (lookup req k).isSome

/-- Dict access for a key established present by a preceding presence
check; models *req[k]* at the call sites where it cannot raise. -/
def lookupD (req : List (String × PyVal)) (k : String) : PyVal :=
  (lookup req k).getD PyVal.none

/-- Sanitization of one value: bleach.clean on strings (the external
primitive is a parameter), any other value is passed through. -/
def sanitizeVal (clean : String → String) : PyVal → PyVal
  | PyVal.str s => PyVal.str (clean s)
  | v => v

/-- Sanitized copy of the request body, the dict comprehension over
request.get_json().items() in add_contact. -/
def sanitize (clean : String → String) (body : List (String × PyVal)) :
    List (String × PyVal) :=
  body.map (fun kv => (kv.fst, sanitizeVal clean kv.snd))

/-- Full match against the pattern \A[0-9]{n}\Z: exactly n ASCII
digits, with strict anchors on both sides. -/
def pyDigits (n : Nat) (s : String) : Bool :=
  s.data.length == n && s.data.all Char.isDigit

/-- A character allowed after the first position of a label:
[0-9a-zA-Z ]. -/
def labelChar (c : Char) : Bool := c.isAlphanum || c == ' '

/-- Strict reading of the label pattern of the data model,
[A-Za-z0-9][A-Za-z0-9 ]{0,29} matched against the whole string. -/
def labelPattern (s : String) : Bool :=
  match s.data with
  | [] => false
  | c :: rest => c.isAlphanum && decide (rest.length ≤ 29) && rest.all labelChar

/-- Match of the label against the source regex
^[0-9a-zA-Z][0-9a-zA-Z ]{0,29}$ under Python re semantics, where the
dollar anchor also matches just before one newline that ends the
string; so a single trailing newline is admitted. -/
def pyLabelMatch (s : String) : Bool :=
  labelPattern s ||
    (match s.data.getLast? with
     | Option.some c => c == '\n' && labelPattern (String.mk s.data.dropLast)
     | Option.none => false)

/-- The Python exceptions the handlers can raise or catch. -/
inductive PyExn where
  | permissionError
  | invalidToken
  | userWarning (msg : String)
  | valueError (msg : String)
  | sqlError
  | keyError (key : String)
  | typeError
  deriving DecidableEq, Repr

/-- The check *req[k] is None or not re.match(digit-pattern, req[k])*:
None fails with the given message, a string is matched, and any other
value raises TypeError inside re.match. -/
def checkDigits (n : Nat) (msg : String) : PyVal → Except PyExn Unit
  | PyVal.none => Except.error (PyExn.userWarning msg)
  | PyVal.str s =>
      if pyDigits n s then Except.ok () else Except.error (PyExn.userWarning msg)
  | _ => Except.error PyExn.typeError

/-- The check *req[label] is None or not re.match(label-pattern, ...)*
with the same TypeError behavior on non-string non-null values. -/
def checkLabel : PyVal → Except PyExn Unit
  | PyVal.none => Except.error (PyExn.userWarning "invalid account label")
  | PyVal.str s =>
      if pyLabelMatch s then Except.ok ()
      else Except.error (PyExn.userWarning "invalid account label")
  | _ => Except.error PyExn.typeError

/-- The tuple of required fields of _validate_new_contact. -/
def requiredFields : List String :=
  ["label", "account_num", "routing_num", "is_external"]

/-- Embedding of _validate_new_contact: presence of the four fields,
then account number, routing number, the external-vs-local-routing
rule, and finally the label, short-circuiting on the first failure. -/
def validate_new_contact (localRouting : String)
    (req : List (String × PyVal)) : Except PyExn Unit :=
  if requiredFields.any (fun f => !containsKey req f) then
    Except.error (PyExn.userWarning "missing required field(s)")
  else
    match checkDigits 10 "invalid account number" (lookupD req "account_num") with
    | Except.error e => Except.error e
    | Except.ok _ =>
      match checkDigits 9 "invalid routing number" (lookupD req "routing_num") with
      | Except.error e => Except.error e
      | Except.ok _ =>
        if truthy (lookupD req "is_external")
            && (lookupD req "routing_num" == PyVal.str localRouting) then
          Except.error (PyExn.userWarning "invalid routing number")
        else checkLabel (lookupD req "label")

/-- A stored contact row as build in add_contact and as returned by
the store. -/
structure Contact where
  username : String
  label : PyVal
  account_num : PyVal
  routing_num : PyVal
  is_external : PyVal
  deriving DecidableEq, Repr

/-- Modelled from the spec: the storage errors of the Contact Store
(db.py is outside src); a uniqueness violation and any other failure
are both SQLAlchemyError instances to the handler. -/
inductive DbErr where
  | uniqueViolation
  | connectionFailure
  deriving DecidableEq, Repr

/-- Modelled from the spec: the Contact Store collaborator, a query of
the ordered contact list of a user and an append, each able to fail
with a storage error. -/
structure Db where
  contacts : String → Except Unit (List Contact)
  add : Contact → Except DbErr Unit

/-- The loop of _check_contact_allowed over the existing contacts in
stored order: an (account_num, routing_num) pair match fails first,
otherwise a label match fails, otherwise the next contact is tried. -/
def scanContacts (a r l : PyVal) : List Contact → Except PyExn Unit
  | [] => Except.ok ()
  | c :: rest =>
    if c.account_num = a ∧ c.routing_num = r then
      Except.error (PyExn.valueError "account already exists as a contact")
    else if c.label = l then
      Except.error (PyExn.valueError "contact already exists with that label")
    else scanContacts a r l rest

/-- Embedding of _check_contact_allowed: the self-reference check
against the callers own account id, then the duplicate scan over the
contact list fetched from the store; a failing fetch raises the
storage error. -/
def check_contact_allowed (contactsRes : Except Unit (List Contact))
    (localRouting : String) (accountid : PyVal)
    (req : List (String × PyVal)) : Except PyExn Unit :=
  if lookupD req "account_num" = accountid
      ∧ lookupD req "routing_num" = PyVal.str localRouting then
    Except.error (PyExn.valueError "may not add yourself to contacts")
  else
    match contactsRes with
    | Except.error _ => Except.error PyExn.sqlError
    | Except.ok cs =>
        scanContacts (lookupD req "account_num") (lookupD req "routing_num")
          (lookupD req "label") cs

/-- Decoded token claims: a JSON object. -/
abbrev Claims := List (String × PyVal)

/-- Modelled from the spec: the external JWT library. jwt.decode with
the configured public key and RS256 either returns the decoded claim
set or raises InvalidTokenError; the empty token never verifies. -/
structure Jwt where
  verify : String → Option Claims
  empty_fails : verify "" = Option.none

/-- Suffix of a character list after its last space character; the
value of s.split(" ")[-1] in Python, which cuts at every single
space character and keeps empty segments. -/
def lastFieldAux (cs : List Char) : List Char :=
  cs.foldl (fun acc c => if c = ' ' then [] else acc ++ [c]) []

/-- Embedding of the token extraction of both handlers: an absent or
empty Authorization header gives the empty token, otherwise
auth_header.split(" ")[-1], the part after the last space. -/
def tokenOfHeader : Option String → String
  | Option.none => ""
  | Option.some h => if h = "" then "" else String.mk (lastFieldAux h.data)

/-- State kept while scanning for the last whitespace-separated
segment: the current run of non-whitespace characters and the last
completed non-empty run. -/
def lastWsStep (st : List Char × List Char) (c : Char) : List Char × List Char :=
  if c.isWhitespace then ([], if st.fst = [] then st.snd else st.fst)
  else (st.fst ++ [c], st.snd)

/-- Token extraction as the spec words it: the last
whitespace-separated segment of the header value, i.e. the last
maximal non-empty run of non-whitespace characters. -/
def lastWhitespaceSegment (s : String) : String :=
  let st := s.data.foldl lastWsStep ([], [])
  String.mk (if st.fst = [] then st.snd else st.fst)

/-- The observable result of one request: an HTTP response with a
string body, the JSON list body of a successful read, the empty JSON
body of a successful write, or an exception no except clause of the
handler catches. -/
inductive Outcome where
  | resp (body : String) (status : Nat)
  | okJson (contacts : List Contact) (status : Nat)
  | okEmpty (status : Nat)
  | crash (e : PyExn)
  deriving DecidableEq, Repr

/-- The try block of the GET handler: decode the token, bind the
identity, fetch the contact list. -/
def getBody (jwt : Jwt) (db : Db) (username : String)
    (authHeader : Option String) : Except PyExn (List Contact) :=
  match jwt.verify (tokenOfHeader authHeader) with
  | Option.none => Except.error PyExn.invalidToken
  | Option.some claims =>
    match lookup claims "user" with
    | Option.none => Except.error (PyExn.keyError "user")
    | Option.some u =>
      if u ≠ PyVal.str username then Except.error PyExn.permissionError
      else
        match db.contacts username with
        | Except.error _ => Except.error PyExn.sqlError
        | Except.ok cs => Except.ok cs

/-- The except clauses of the GET handler: PermissionError and
InvalidTokenError surface as the generic 401, SQLAlchemyError as the
generic 500; every other exception escapes. -/
def exceptToResponseGet : PyExn → Outcome
  | PyExn.permissionError => Outcome.resp "authentication denied" 401
  | PyExn.invalidToken => Outcome.resp "authentication denied" 401
  | PyExn.sqlError => Outcome.resp "failed to retrieve contacts list" 500
  | e => Outcome.crash e

/-- Embedding of the GET /contacts/username handler. -/
def get_contacts (jwt : Jwt) (db : Db) (username : String)
    (authHeader : Option String) : Outcome :=
  match getBody jwt db username authHeader with
  | Except.ok cs => Outcome.okJson cs 200
  | Except.error e => exceptToResponseGet e

/-- The contact_data dict built in add_contact from the sanitized,
validated request. -/
def mkContact (username : String) (req : List (String × PyVal)) : Contact :=
  { username := username
    label := lookupD req "label"
    account_num := lookupD req "account_num"
    routing_num := lookupD req "routing_num"
    is_external := lookupD req "is_external" }

/-- The try block of the POST handler, paired with the list of
contacts handed to the store append; the append list is non-empty
exactly when contacts_db.add_contact was invoked. -/
def addBody (jwt : Jwt) (db : Db) (localRouting : String)
    (clean : String → String) (username : String)
    (authHeader : Option String) (body : List (String × PyVal)) :
    Except PyExn Unit × List Contact :=
  match jwt.verify (tokenOfHeader authHeader) with
  | Option.none => (Except.error PyExn.invalidToken, [])
  | Option.some claims =>
    match lookup claims "user" with
    | Option.none => (Except.error (PyExn.keyError "user"), [])
    | Option.some u =>
      if u ≠ PyVal.str username then (Except.error PyExn.permissionError, [])
      else
        match validate_new_contact localRouting (sanitize clean body) with
        | Except.error e => (Except.error e, [])
        | Except.ok _ =>
          match lookup claims "acct" with
          | Option.none => (Except.error (PyExn.keyError "acct"), [])
          | Option.some accountid =>
            match check_contact_allowed (db.contacts username) localRouting
                accountid (sanitize clean body) with
            | Except.error e => (Except.error e, [])
            | Except.ok _ =>
              match db.add (mkContact username (sanitize clean body)) with
              | Except.error _ =>
                  (Except.error PyExn.sqlError,
                   [mkContact username (sanitize clean body)])
              | Except.ok _ =>
                  (Except.ok (), [mkContact username (sanitize clean body)])

/-- The except clauses of the POST handler: 401 for the two identity
failures, 400 with the message for UserWarning, 409 with the message
for ValueError, the generic 500 for SQLAlchemyError; every other
exception escapes. -/
def exceptToResponsePost : PyExn → Outcome
  | PyExn.permissionError => Outcome.resp "authentication denied" 401
  | PyExn.invalidToken => Outcome.resp "authentication denied" 401
  | PyExn.userWarning m => Outcome.resp m 400
  | PyExn.valueError m => Outcome.resp m 409
  | PyExn.sqlError => Outcome.resp "failed to add contact" 500
  | e => Outcome.crash e

/-- Embedding of the POST /contacts/username handler, returning the
response outcome and the list of contacts handed to the store. -/
def add_contact (jwt : Jwt) (db : Db) (localRouting : String)
    (clean : String → String) (username : String)
    (authHeader : Option String) (body : List (String × PyVal)) :
    Outcome × List Contact :=
  ((match (addBody jwt db localRouting clean username authHeader body).fst with
    | Except.ok _ => Outcome.okEmpty 201
    | Except.error e => exceptToResponsePost e),
   (addBody jwt db localRouting clean username authHeader body).snd)

/-- Truth of an Except result, a successful store append. -/
def exceptIsOk : Except ε α → Bool
  | Except.ok _ => true
  | Except.error _ => false

/-- Modelled from the spec: the store state after the appends of one
request; a successful append adds the contact at the end of the list
of its owner, a failed append leaves every list unchanged, and no
stored contact is ever mutated or deleted. -/
def storeAfter (db : Db) (st : String → List Contact)
    (log : List Contact) : String → List Contact :=
  fun u => st u ++ (log.filter fun c => (c.username == u) && exceptIsOk (db.add c))

/-! Claim-side definitions: the validation algorithm as the
specification words it, used to compare the source embedding with the
stated behavior. -/

/-- Value that is a string of exactly n digits, the claim-side reading
of the digit patterns of the data model. -/
def isDigitsVal (n : Nat) : PyVal → Bool
  | PyVal.str s => pyDigits n s
  | _ => false

/-- Value that is a string matching the strict label pattern. -/
def isLabelValStrict : PyVal → Bool
  | PyVal.str s => labelPattern s
  | _ => false

/-- Value that is a string matching the label pattern under Python re
dollar-anchor semantics. -/
def isLabelValPy : PyVal → Bool
  | PyVal.str s => pyLabelMatch s
  | _ => false

/-- Validation as claim C2 words it, with the label pattern read
strictly: the first violated rule in the stated order gives the
failure message, otherwise validation passes. -/
def specValidate (localRouting : String)
    (req : List (String × PyVal)) : Option String :=
  if requiredFields.any (fun f => !containsKey req f) then
    Option.some "missing required field(s)"
  else if !isDigitsVal 10 (lookupD req "account_num") then
    Option.some "invalid account number"
  else if !isDigitsVal 9 (lookupD req "routing_num") then
    Option.some "invalid routing number"
  else if truthy (lookupD req "is_external")
      && (lookupD req "routing_num" == PyVal.str localRouting) then
    Option.some "invalid routing number"
  else if !isLabelValStrict (lookupD req "label") then
    Option.some "invalid account label"
  else Option.none

/-- Validation as claim C2 words it, amended only where the source
forces it: the label pattern is matched with the Python dollar anchor,
so one trailing newline is admitted. -/
def specValidateAmended (localRouting : String)
    (req : List (String × PyVal)) : Option String :=
  if requiredFields.any (fun f => !containsKey req f) then
    Option.some "missing required field(s)"
  else if !isDigitsVal 10 (lookupD req "account_num") then
    Option.some "invalid account number"
  else if !isDigitsVal 9 (lookupD req "routing_num") then
    Option.some "invalid routing number"
  else if truthy (lookupD req "is_external")
      && (lookupD req "routing_num" == PyVal.str localRouting) then
    Option.some "invalid routing number"
  else if !isLabelValPy (lookupD req "label") then
    Option.some "invalid account label"
  else Option.none

/-- Failure message turned into the ValidationError outcome of the
validator. -/
def toExcept : Option String → Except PyExn Unit
  | Option.some m => Except.error (PyExn.userWarning m)
  | Option.none => Except.ok ()

/-- Value that the Python regex calls accept without a TypeError:
None or a string. -/
def strOrNull : PyVal → Bool
  | PyVal.none => true
  | PyVal.str _ => true
  | _ => false

/-- The value stored under a key, when present, is None or a string. -/
def strOrNullAt (req : List (String × PyVal)) (k : String) : Bool :=
  match lookup req k with
  | Option.some v => strOrNull v
  | Option.none => true

/-! Concrete fixtures used to evaluate the theorems at specific
inputs: a sanitizer that leaves markup-free strings unchanged, small
stores, tokens and bodies. -/

/-- Sanitizer instance for inputs without markup, on which
bleach.clean is the identity. -/
def cleanId : String → String := fun s => s

/-- A store with no contacts whose appends succeed. -/
def emptyDb : Db := ⟨fun _ => Except.ok [], fun _ => Except.ok ()⟩

/-- A store whose append fails with a uniqueness violation. -/
def uniqueViolationDb : Db :=
  ⟨fun _ => Except.ok [], fun _ => Except.error DbErr.uniqueViolation⟩

/-- A store that fails every query. -/
def downDb : Db := ⟨fun _ => Except.error (), fun _ => Except.error DbErr.connectionFailure⟩

/-- A key environment where the token tokA carries claims for alice
with account 1234567890. -/
def jwtAlice : Jwt :=
  ⟨fun t => if t = "tokA" then
      Option.some [("user", PyVal.str "alice"), ("acct", PyVal.str "1234567890")]
    else Option.none, by decide⟩

/-- A key environment that rejects every token. -/
def jwtReject : Jwt := ⟨fun _ => Option.none, rfl⟩

/-- A key environment where the token tokD carries claims for bob. -/
def jwtBob : Jwt :=
  ⟨fun t => if t = "tokD" then Option.some [("user", PyVal.str "bob")]
    else Option.none, by decide⟩

/-- A key environment where the token tokB verifies but its claim set
has no user key. -/
def jwtNoUser : Jwt :=
  ⟨fun t => if t = "tokB" then Option.some [("role", PyVal.str "x")]
    else Option.none, by decide⟩

/-- A key environment where the token tokC verifies with a user claim
for alice but no acct key. -/
def jwtNoAcct : Jwt :=
  ⟨fun t => if t = "tokC" then Option.some [("user", PyVal.str "alice")]
    else Option.none, by decide⟩

/-- A structurally valid body for an external contact. -/
def bodyValid : List (String × PyVal) :=
  [("label", PyVal.str "Bob S"), ("account_num", PyVal.str "0000000001"),
   ("routing_num", PyVal.str "111111111"), ("is_external", PyVal.bool true)]

/-- A body whose label carries a single trailing newline. -/
def bodyNewline : List (String × PyVal) :=
  [("label", PyVal.str "A\n"), ("account_num", PyVal.str "0000000001"),
   ("routing_num", PyVal.str "111111111"), ("is_external", PyVal.bool false)]

/-- A sanitized candidate whose account number is an integer rather
than a string or null. -/
def reqIntAccount : List (String × PyVal) :=
  [("label", PyVal.str "Bob S"), ("account_num", PyVal.int 5),
   ("routing_num", PyVal.str "111111111"), ("is_external", PyVal.bool false)]

/-- A sanitized candidate whose is_external is the non-empty string
false and whose routing number is the local one. -/
def reqStrFalse : List (String × PyVal) :=
  [("label", PyVal.str "Bob S"), ("account_num", PyVal.str "0000000001"),
   ("routing_num", PyVal.str "111111111"), ("is_external", PyVal.str "false")]

/-- A sanitized candidate whose is_external is an integer and whose
routing number differs from the local one. -/
def reqIntExternal : List (String × PyVal) :=
  [("label", PyVal.str "Bob S"), ("account_num", PyVal.str "0000000001"),
   ("routing_num", PyVal.str "111111111"), ("is_external", PyVal.int 7)]

/-- The contact persisted by a successful write of bodyValid for
alice. -/
def contactPersisted : Contact :=
  { username := "alice", label := PyVal.str "Bob S"
    account_num := PyVal.str "0000000001"
    routing_num := PyVal.str "111111111"
    is_external := PyVal.bool true }

/-- An existing stored contact of alice matching bodyValid by pair. -/
def contactPair : Contact :=
  { username := "alice", label := PyVal.str "Old"
    account_num := PyVal.str "0000000001"
    routing_num := PyVal.str "111111111"
    is_external := PyVal.bool true }

/-! Helper lemmas. -/

/-- A contained key has a value. -/
theorem containsKey_some {req : List (String × PyVal)} {k : String}
    (h : containsKey req k = true) : ∃ v, lookup req k = Option.some v := by
  unfold containsKey at h
  cases hv : lookup req k with
  | none => rw [hv] at h; simp [Option.isSome] at h
  | some v => exact ⟨v, rfl⟩

/-- On None-or-string values the digit check is the claim-side digit
test with the stated message. -/
theorem checkDigits_eq (n : Nat) (msg : String) (v : PyVal)
    (h : strOrNull v = true) :
    checkDigits n msg v =
      if isDigitsVal n v then Except.ok ()
      else Except.error (PyExn.userWarning msg) := by
  cases v with
  | none => simp [checkDigits, isDigitsVal]
  | str s => simp [checkDigits, isDigitsVal]
  | bool b => simp [strOrNull] at h
  | int n2 => simp [strOrNull] at h

/-- On None-or-string values the label check is the claim-side label
test under Python dollar semantics. -/
theorem checkLabel_eq (v : PyVal) (h : strOrNull v = true) :
    checkLabel v =
      if isLabelValPy v then Except.ok ()
      else Except.error (PyExn.userWarning "invalid account label") := by
  cases v with
  | none => simp [checkLabel, isLabelValPy]
  | str s => simp [checkLabel, isLabelValPy]
  | bool b => simp [strOrNull] at h
  | int n2 => simp [strOrNull] at h

/-- A successful digit check means the value was a digit string. -/
theorem checkDigits_ok {n : Nat} {msg : String} {v : PyVal} {u : Unit}
    (h : checkDigits n msg v = Except.ok u) :
    ∃ s, v = PyVal.str s ∧ pyDigits n s = true := by
  cases v with
  | none => simp [checkDigits] at h
  | str s =>
    refine ⟨s, rfl, ?_⟩
    by_cases hd : pyDigits n s = true
    · exact hd
    · simp [checkDigits, hd] at h
  | bool b => simp [checkDigits] at h
  | int n2 => simp [checkDigits] at h

/-- A successful label check means the value was a matching string. -/
theorem checkLabel_ok {v : PyVal} {u : Unit}
    (h : checkLabel v = Except.ok u) :
    ∃ s, v = PyVal.str s ∧ pyLabelMatch s = true := by
  cases v with
  | none => simp [checkLabel] at h
  | str s =>
    refine ⟨s, rfl, ?_⟩
    by_cases hd : pyLabelMatch s = true
    · exact hd
    · simp [checkLabel, hd] at h
  | bool b => simp [checkLabel] at h
  | int n2 => simp [checkLabel] at h

/-- The digit check fails only with its stated message or a
TypeError. -/
theorem checkDigits_error {n : Nat} {msg : String} {v : PyVal} {e : PyExn}
    (h : checkDigits n msg v = Except.error e) :
    e = PyExn.userWarning msg ∨ e = PyExn.typeError := by
  cases v with
  | none => left; simpa [checkDigits] using h.symm
  | str s =>
    by_cases hd : pyDigits n s = true
    · simp [checkDigits, hd] at h
    · left; rw [checkDigits] at h; rw [if_neg hd] at h
      exact (Except.error.inj h).symm
  | bool b => right; simpa [checkDigits] using h.symm
  | int n2 => right; simpa [checkDigits] using h.symm

/-- The label check fails only with its stated message or a
TypeError. -/
theorem checkLabel_error {v : PyVal} {e : PyExn}
    (h : checkLabel v = Except.error e) :
    e = PyExn.userWarning "invalid account label" ∨ e = PyExn.typeError := by
  cases v with
  | none => left; simpa [checkLabel] using h.symm
  | str s =>
    by_cases hd : pyLabelMatch s = true
    · simp [checkLabel, hd] at h
    · left; rw [checkLabel] at h; rw [if_neg hd] at h
      exact (Except.error.inj h).symm
  | bool b => right; simpa [checkLabel] using h.symm
  | int n2 => right; simpa [checkLabel] using h.symm

/-- The duplicate scan passes when no existing contact matches the
candidate pair or label. -/
theorem scanContacts_ok (a r l : PyVal) (cs : List Contact)
    (h : ∀ c ∈ cs, ¬(c.account_num = a ∧ c.routing_num = r) ∧ c.label ≠ l) :
    scanContacts a r l cs = Except.ok () := by
  induction cs with
  | nil => rfl
  | cons c rest ih =>
    have hc := h c (List.mem_cons_self c rest)
    rw [scanContacts, if_neg hc.1, if_neg hc.2]
    exact ih (fun c2 h2 => h c2 (List.mem_cons_of_mem c h2))

/-- The duplicate scan fails on the first matching contact in stored
order: a pair match gives the account message. -/
theorem scanContacts_first_pair (a r l : PyVal) (pre post : List Contact)
    (c : Contact)
    (hpre : ∀ c2 ∈ pre, ¬(c2.account_num = a ∧ c2.routing_num = r) ∧ c2.label ≠ l)
    (hc : c.account_num = a ∧ c.routing_num = r) :
    scanContacts a r l (pre ++ c :: post)
      = Except.error (PyExn.valueError "account already exists as a contact") := by
  induction pre with
  | nil => rw [List.nil_append, scanContacts, if_pos hc]
  | cons c2 rest ih =>
    have hc2 := hpre c2 (List.mem_cons_self c2 rest)
    rw [List.cons_append, scanContacts, if_neg hc2.1, if_neg hc2.2]
    exact ih (fun c3 h3 => hpre c3 (List.mem_cons_of_mem c2 h3))

/-- The duplicate scan fails on the first matching contact in stored
order: with no pair match a label match gives the label message. -/
theorem scanContacts_first_label (a r l : PyVal) (pre post : List Contact)
    (c : Contact)
    (hpre : ∀ c2 ∈ pre, ¬(c2.account_num = a ∧ c2.routing_num = r) ∧ c2.label ≠ l)
    (hnp : ¬(c.account_num = a ∧ c.routing_num = r)) (hl : c.label = l) :
    scanContacts a r l (pre ++ c :: post)
      = Except.error (PyExn.valueError "contact already exists with that label") := by
  induction pre with
  | nil => rw [List.nil_append, scanContacts, if_neg hnp, if_pos hl]
  | cons c2 rest ih =>
    have hc2 := hpre c2 (List.mem_cons_self c2 rest)
    rw [List.cons_append, scanContacts, if_neg hc2.1, if_neg hc2.2]
    exact ih (fun c3 h3 => hpre c3 (List.mem_cons_of_mem c2 h3))

/-- The duplicate scan fails only with one of its two conflict
messages. -/
theorem scanContacts_error {a r l : PyVal} {cs : List Contact} {e : PyExn}
    (h : scanContacts a r l cs = Except.error e) :
    e = PyExn.valueError "account already exists as a contact"
      ∨ e = PyExn.valueError "contact already exists with that label" := by
  induction cs with
  | nil => simp [scanContacts] at h
  | cons c rest ih =>
    rw [scanContacts] at h
    by_cases h1 : c.account_num = a ∧ c.routing_num = r
    · rw [if_pos h1] at h; left; exact (Except.error.inj h).symm
    · rw [if_neg h1] at h
      by_cases h2 : c.label = l
      · rw [if_pos h2] at h; right; exact (Except.error.inj h).symm
      · rw [if_neg h2] at h; exact ih h

/-- The business-rule check fails only with a conflict message or the
storage error. -/
theorem check_allowed_error {res : Except Unit (List Contact)}
    {lr : String} {accountid : PyVal} {req : List (String × PyVal)} {e : PyExn}
    (h : check_contact_allowed res lr accountid req = Except.error e) :
    (∃ m, e = PyExn.valueError m) ∨ e = PyExn.sqlError := by
  rw [check_contact_allowed.eq_def] at h
  by_cases hs : lookupD req "account_num" = accountid
      ∧ lookupD req "routing_num" = PyVal.str lr
  · rw [if_pos hs] at h; exact Or.inl ⟨_, (Except.error.inj h).symm⟩
  · rw [if_neg hs] at h
    cases res with
    | error u => right; simpa using h.symm
    | ok cs =>
      simp only at h
      rcases scanContacts_error h with h2 | h2
      · exact Or.inl ⟨_, h2⟩
      · exact Or.inl ⟨_, h2⟩

/-- The validator fails only with a ValidationError message or a
TypeError. -/
theorem validate_error {lr : String} {req : List (String × PyVal)} {e : PyExn}
    (h : validate_new_contact lr req = Except.error e) :
    (∃ m, e = PyExn.userWarning m) ∨ e = PyExn.typeError := by
  rw [validate_new_contact] at h
  by_cases hmiss : requiredFields.any (fun f => !containsKey req f) = true
  · rw [if_pos hmiss] at h; exact Or.inl ⟨_, (Except.error.inj h).symm⟩
  · rw [if_neg hmiss] at h
    cases h1 : checkDigits 10 "invalid account number" (lookupD req "account_num") with
    | error e1 =>
      rw [h1] at h
      rcases checkDigits_error (h1.trans (congrArg Except.error (Except.error.inj h)))
        with h2 | h2
      · exact Or.inl ⟨_, h2⟩
      · exact Or.inr h2
    | ok u1 =>
      rw [h1] at h
      cases h2 : checkDigits 9 "invalid routing number" (lookupD req "routing_num") with
      | error e2 =>
        rw [h2] at h
        rcases checkDigits_error (h2.trans (congrArg Except.error (Except.error.inj h)))
          with h3 | h3
        · exact Or.inl ⟨_, h3⟩
        · exact Or.inr h3
      | ok u2 =>
        rw [h2] at h
        simp only at h
        by_cases hext : (truthy (lookupD req "is_external")
            && (lookupD req "routing_num" == PyVal.str lr)) = true
        · rw [if_pos hext] at h; exact Or.inl ⟨_, (Except.error.inj h).symm⟩
        · rw [if_neg hext] at h
          rcases checkLabel_error h with h3 | h3
          · exact Or.inl ⟨_, h3⟩
          · exact Or.inr h3

/-- A successful validation pins down the shape of the four fields of
the sanitized candidate record. -/
theorem validate_ok_shape {lr : String} {req : List (String × PyVal)}
    (h : validate_new_contact lr req = Except.ok ()) :
    (∃ s, lookupD req "account_num" = PyVal.str s ∧ pyDigits 10 s = true) ∧
    (∃ s, lookupD req "routing_num" = PyVal.str s ∧ pyDigits 9 s = true) ∧
    (∃ s, lookupD req "label" = PyVal.str s ∧ pyLabelMatch s = true) ∧
    (truthy (lookupD req "is_external") = true →
      lookupD req "routing_num" ≠ PyVal.str lr) := by
  rw [validate_new_contact] at h
  by_cases hmiss : requiredFields.any (fun f => !containsKey req f) = true
  · rw [if_pos hmiss] at h; simp at h
  · rw [if_neg hmiss] at h
    cases h1 : checkDigits 10 "invalid account number" (lookupD req "account_num") with
    | error e1 => rw [h1] at h; simp at h
    | ok u1 =>
      rw [h1] at h
      cases h2 : checkDigits 9 "invalid routing number" (lookupD req "routing_num") with
      | error e2 => rw [h2] at h; simp at h
      | ok u2 =>
        rw [h2] at h
        simp only at h
        by_cases hext : (truthy (lookupD req "is_external")
            && (lookupD req "routing_num" == PyVal.str lr)) = true
        · rw [if_pos hext] at h; simp at h
        · rw [if_neg hext] at h
          obtain ⟨sa, hsa, hda⟩ := checkDigits_ok h1
          obtain ⟨sr, hsr, hdr⟩ := checkDigits_ok h2
          obtain ⟨sl, hsl, hdl⟩ := checkLabel_ok h
          refine ⟨⟨sa, hsa, hda⟩, ⟨sr, hsr, hdr⟩, ⟨sl, hsl, hdl⟩, ?_⟩
          intro ht hre
          apply hext
          rw [ht, hre]
          simp

/-- Sanitization acts pointwise on the values of the body: the value
under each key is the sanitized original value. -/
theorem lookup_sanitize (clean : String → String)
    (body : List (String × PyVal)) (k : String) :
    lookup (sanitize clean body) k
      = Option.map (sanitizeVal clean) (lookup body k) := by
  induction body with
  | nil => rfl
  | cons kv rest ih =>
    cases kv with
    | mk k2 v2 =>
      by_cases hk : k2 = k
      · simp [sanitize, lookup, hk]
      · simpa [sanitize, lookup, hk] using ih

/-- The response of the POST handler is the translation of the try
block result by its except clauses. -/
theorem add_contact_fst (jwt : Jwt) (db : Db) (lr : String)
    (clean : String → String) (username : String)
    (authHeader : Option String) (body : List (String × PyVal)) :
    (add_contact jwt db lr clean username authHeader body).fst
      = match (addBody jwt db lr clean username authHeader body).fst with
        | Except.ok _ => Outcome.okEmpty 201
        | Except.error e => exceptToResponsePost e := rfl

/-- The append list of the POST handler is that of its try block. -/
theorem add_contact_snd (jwt : Jwt) (db : Db) (lr : String)
    (clean : String → String) (username : String)
    (authHeader : Option String) (body : List (String × PyVal)) :
    (add_contact jwt db lr clean username authHeader body).snd
      = (addBody jwt db lr clean username authHeader body).snd := rfl

/-- The try block of the POST handler either hands nothing to the
store, or hands it exactly the contact built from the sanitized
validated request, in which case validation succeeded and the try
block result is decided by the append result. -/
theorem addBody_shape (jwt : Jwt) (db : Db) (lr : String)
    (clean : String → String) (username : String)
    (authHeader : Option String) (body : List (String × PyVal)) :
    (addBody jwt db lr clean username authHeader body).snd = [] ∨
    ((addBody jwt db lr clean username authHeader body).snd
        = [mkContact username (sanitize clean body)] ∧
     validate_new_contact lr (sanitize clean body) = Except.ok () ∧
     ((db.add (mkContact username (sanitize clean body)) = Except.ok () ∧
       (addBody jwt db lr clean username authHeader body).fst = Except.ok ()) ∨
      ((∃ d, db.add (mkContact username (sanitize clean body)) = Except.error d) ∧
       (addBody jwt db lr clean username authHeader body).fst
         = Except.error PyExn.sqlError))) := by
  rw [addBody]
  cases hv : jwt.verify (tokenOfHeader authHeader) with
  | none => exact Or.inl rfl
  | some claims =>
    simp only
    cases hu : lookup claims "user" with
    | none => exact Or.inl rfl
    | some u =>
      simp only
      by_cases hne : u ≠ PyVal.str username
      · rw [if_pos hne]; exact Or.inl rfl
      · rw [if_neg hne]
        cases hval : validate_new_contact lr (sanitize clean body) with
        | error e => exact Or.inl rfl
        | ok u2 =>
          cases u2
          simp only
          cases hacct : lookup claims "acct" with
          | none => exact Or.inl rfl
          | some accountid =>
            simp only
            cases hchk : check_contact_allowed (db.contacts username) lr accountid
                (sanitize clean body) with
            | error e => exact Or.inl rfl
            | ok u3 =>
              simp only
              cases hadd : db.add (mkContact username (sanitize clean body)) with
              | error d => exact Or.inr ⟨rfl, by trivial, Or.inr ⟨⟨d, rfl⟩, rfl⟩⟩
              | ok u4 => cases u4; exact Or.inr ⟨rfl, by trivial, Or.inl ⟨rfl, rfl⟩⟩

/-- Every error the try block of the POST handler can produce, with
the 400 messages tied to the validator and the 409 messages to the
business-rule check. -/
theorem addBody_error_shape (jwt : Jwt) (db : Db) (lr : String)
    (clean : String → String) (username : String)
    (authHeader : Option String) (body : List (String × PyVal)) (e : PyExn)
    (h : (addBody jwt db lr clean username authHeader body).fst
        = Except.error e) :
    e = PyExn.invalidToken ∨ e = PyExn.permissionError ∨
    e = PyExn.keyError "user" ∨ e = PyExn.keyError "acct" ∨
    e = PyExn.sqlError ∨ e = PyExn.typeError ∨
    (∃ m, e = PyExn.userWarning m ∧
       validate_new_contact lr (sanitize clean body)
         = Except.error (PyExn.userWarning m)) ∨
    (∃ m, e = PyExn.valueError m) := by
  rw [addBody] at h
  cases hv : jwt.verify (tokenOfHeader authHeader) with
  | none => rw [hv] at h; exact Or.inl (Except.error.inj h).symm
  | some claims =>
    rw [hv] at h
    simp only at h
    cases hu : lookup claims "user" with
    | none =>
      rw [hu] at h
      exact Or.inr (Or.inr (Or.inl (Except.error.inj h).symm))
    | some u =>
      rw [hu] at h
      simp only at h
      by_cases hne : u ≠ PyVal.str username
      · rw [if_pos hne] at h
        exact Or.inr (Or.inl (Except.error.inj h).symm)
      · rw [if_neg hne] at h
        cases hval : validate_new_contact lr (sanitize clean body) with
        | error e2 =>
          rw [hval] at h
          have he : e = e2 := (Except.error.inj h).symm
          subst he
          rcases validate_error hval with ⟨m, hm⟩ | hm
          · subst hm
            exact Or.inr (Or.inr (Or.inr (Or.inr (Or.inr (Or.inr
              (Or.inl ⟨m, rfl, rfl⟩))))))
          · subst hm
            exact Or.inr (Or.inr (Or.inr (Or.inr (Or.inr (Or.inl rfl)))))
        | ok u2 =>
          rw [hval] at h
          simp only at h
          cases hacct : lookup claims "acct" with
          | none =>
            rw [hacct] at h
            exact Or.inr (Or.inr (Or.inr (Or.inl (Except.error.inj h).symm)))
          | some accountid =>
            rw [hacct] at h
            simp only at h
            cases hchk : check_contact_allowed (db.contacts username) lr accountid
                (sanitize clean body) with
            | error e3 =>
              rw [hchk] at h
              have he : e = e3 := (Except.error.inj h).symm
              subst he
              rcases check_allowed_error hchk with ⟨m, hm⟩ | hm
              · exact Or.inr (Or.inr (Or.inr (Or.inr (Or.inr (Or.inr
                  (Or.inr ⟨m, hm⟩))))))
              · subst hm
                exact Or.inr (Or.inr (Or.inr (Or.inr (Or.inl rfl))))
            | ok u3 =>
              rw [hchk] at h
              simp only at h
              cases hadd : db.add (mkContact username (sanitize clean body)) with
              | error d =>
                rw [hadd] at h
                exact Or.inr (Or.inr (Or.inr (Or.inr (Or.inl
                  (Except.error.inj h).symm))))
              | ok u4 => rw [hadd] at h; simp at h

/-! Claim theorems. -/

/-- C1: for every GET or POST request to /contacts/username carrying
a validly-signed token whose user claim differs from the path
username, the response is the generic body authentication denied with
status 401, regardless of payload validity, and this outcome is
byte-for-byte identical to the outcome of a bad-signature, malformed
or expired token, which surfaces as the verification failure of the
modelled JWT collaborator. -/
theorem C1_identity_mismatch_indistinguishable
    (jwt jwt2 : Jwt) (db db2 : Db) (lr lr2 : String)
    (clean clean2 : String → String) (username : String)
    (authHeader authHeader2 : Option String)
    (body body2 : List (String × PyVal)) (claims : Claims) (u : PyVal)
    (hv : jwt.verify (tokenOfHeader authHeader) = Option.some claims)
    (hu : lookup claims "user" = Option.some u)
    (hne : u ≠ PyVal.str username)
    (hbad : jwt2.verify (tokenOfHeader authHeader2) = Option.none) :
    get_contacts jwt db username authHeader
      = Outcome.resp "authentication denied" 401 ∧
    (add_contact jwt db lr clean username authHeader body).fst
      = Outcome.resp "authentication denied" 401 ∧
    get_contacts jwt2 db2 username authHeader2
      = Outcome.resp "authentication denied" 401 ∧
    (add_contact jwt2 db2 lr2 clean2 username authHeader2 body2).fst
      = Outcome.resp "authentication denied" 401 := by
  refine ⟨?_, ?_, ?_, ?_⟩
  · simp only [get_contacts, getBody, hv, hu, if_pos hne]
    rfl
  · rw [add_contact_fst]
    simp only [addBody, hv, hu, if_pos hne]
    rfl
  · simp only [get_contacts, getBody, hbad]
    rfl
  · rw [add_contact_fst]
    simp only [addBody, hbad]
    rfl

/-- C1 witness: a signed token for bob used against the resource of
alice is answered exactly like a rejected token, 401 authentication
denied on both endpoints, with a structurally valid payload. -/
theorem C1_identity_mismatch_indistinguishable_witness :
    get_contacts jwtBob emptyDb "alice" (Option.some "Bearer tokD")
      = Outcome.resp "authentication denied" 401 ∧
    (add_contact jwtBob emptyDb "123456789" cleanId "alice"
        (Option.some "Bearer tokD") bodyValid).fst
      = Outcome.resp "authentication denied" 401 ∧
    get_contacts jwtReject emptyDb "alice" (Option.some "Bearer tokD")
      = Outcome.resp "authentication denied" 401 ∧
    (add_contact jwtReject emptyDb "123456789" cleanId "alice"
        (Option.some "Bearer tokD") bodyValid).fst
      = Outcome.resp "authentication denied" 401 :=
  C1_identity_mismatch_indistinguishable jwtBob jwtReject emptyDb emptyDb
    "123456789" "123456789" cleanId cleanId "alice"
    (Option.some "Bearer tokD") (Option.some "Bearer tokD")
    bodyValid bodyValid [("user", PyVal.str "bob")] (PyVal.str "bob")
    (by decide) (by decide) (by decide) rfl

/-- C2 (amended): for every sanitized candidate record whose
account_num, routing_num and label values, where present, are strings
or null, validation equals the stated deterministic cascade in the
stated order with the stated messages, with the label pattern matched
under Python dollar-anchor semantics (one trailing newline admitted);
a non-string non-null value at one of the three regex-checked fields
instead raises an unhandled TypeError. -/
theorem C2_validation_order_and_messages (lr : String)
    (req : List (String × PyVal))
    (ha : strOrNullAt req "account_num" = true)
    (hr : strOrNullAt req "routing_num" = true)
    (hl : strOrNullAt req "label" = true) :
    validate_new_contact lr req = toExcept (specValidateAmended lr req) := by
  rw [validate_new_contact, specValidateAmended]
  by_cases hmiss : requiredFields.any (fun f => !containsKey req f) = true
  · rw [if_pos hmiss, if_pos hmiss]; rfl
  · rw [if_neg hmiss, if_neg hmiss]
    have hall : ∀ f ∈ requiredFields, containsKey req f = true := by
      intro f hf
      cases hcb : containsKey req f with
      | true => rfl
      | false =>
        exact absurd (List.any_eq_true.mpr ⟨f, hf, by rw [hcb]; rfl⟩) hmiss
    obtain ⟨va, hva⟩ := containsKey_some (hall "account_num" (by simp [requiredFields]))
    obtain ⟨vr, hvr⟩ := containsKey_some (hall "routing_num" (by simp [requiredFields]))
    obtain ⟨vl, hvl⟩ := containsKey_some (hall "label" (by simp [requiredFields]))
    obtain ⟨vx, hvx⟩ := containsKey_some (hall "is_external" (by simp [requiredFields]))
    have haS : strOrNull va = true := by
      unfold strOrNullAt at ha; rw [hva] at ha; exact ha
    have hrS : strOrNull vr = true := by
      unfold strOrNullAt at hr; rw [hvr] at hr; exact hr
    have hlS : strOrNull vl = true := by
      unfold strOrNullAt at hl; rw [hvl] at hl; exact hl
    have hda : lookupD req "account_num" = va := by rw [lookupD, hva]; rfl
    have hdr : lookupD req "routing_num" = vr := by rw [lookupD, hvr]; rfl
    have hdl : lookupD req "label" = vl := by rw [lookupD, hvl]; rfl
    have hdx : lookupD req "is_external" = vx := by rw [lookupD, hvx]; rfl
    rw [hda, hdr, hdl, hdx]
    rw [checkDigits_eq 10 _ _ haS, checkDigits_eq 9 _ _ hrS, checkLabel_eq _ hlS]
    cases h10 : isDigitsVal 10 va with
    | false => simp [h10, toExcept]
    | true =>
      cases h9 : isDigitsVal 9 vr with
      | false => simp [h9, toExcept]
      | true =>
        cases hext : (truthy vx && (vr == PyVal.str lr)) with
        | true => simp [hext, toExcept]
        | false =>
          cases hlab : isLabelValPy vl with
          | false => simp [hlab, toExcept]
          | true => simp [hlab, toExcept]

/-- C2 witness: on a concrete sanitized candidate with string fields
the validator and the stated cascade agree. -/
theorem C2_validation_order_and_messages_witness :
    strOrNullAt bodyValid "account_num" = true ∧
    strOrNullAt bodyValid "routing_num" = true ∧
    strOrNullAt bodyValid "label" = true ∧
    validate_new_contact "123456789" bodyValid
      = toExcept (specValidateAmended "123456789" bodyValid) :=
  ⟨by decide, by decide, by decide,
   C2_validation_order_and_messages "123456789" bodyValid
     (by decide) (by decide) (by decide)⟩

/-- C2 counterexample: on a candidate whose account_num is the
integer 5 — not null and not a ten-digit string — the claim states
the failure invalid account number, but the source raises an
unhandled TypeError inside re.match. -/
theorem C2_counterexample :
    validate_new_contact "123456789" reqIntAccount
      = Except.error PyExn.typeError ∧
    specValidate "123456789" reqIntAccount
      = Option.some "invalid account number" ∧
    Except.error (α := Unit) PyExn.typeError
      ≠ Except.error (α := Unit) (PyExn.userWarning "invalid account number") := by
  refine ⟨by decide, by decide, by decide⟩

/-- C3: for every structurally-valid candidate on a write, the
business-rule check first fails with the self-reference message
whenever the candidate account number equals the callers own account
number taken from the token acct claim and the candidate routing
number equals the local routing number; otherwise it scans the
existing contacts in stored order, failing on the first pair match
with the account message, else on a label match with the label
message, and passes when nothing matches. -/
theorem C3_business_rule_order (cs : List Contact) (lr username : String)
    (accountid a r l : PyVal) (req : List (String × PyVal))
    (ha : lookupD req "account_num" = a)
    (hr : lookupD req "routing_num" = r)
    (hl : lookupD req "label" = l) :
    (a = accountid ∧ r = PyVal.str lr →
      check_contact_allowed (Except.ok cs) lr accountid req
        = Except.error (PyExn.valueError "may not add yourself to contacts")) ∧
    (¬(a = accountid ∧ r = PyVal.str lr) →
      (∀ c ∈ cs, ¬(c.account_num = a ∧ c.routing_num = r) ∧ c.label ≠ l) →
      check_contact_allowed (Except.ok cs) lr accountid req = Except.ok ()) ∧
    (¬(a = accountid ∧ r = PyVal.str lr) →
      ∀ pre c post, cs = pre ++ c :: post →
        (∀ c2 ∈ pre, ¬(c2.account_num = a ∧ c2.routing_num = r) ∧ c2.label ≠ l) →
        ((c.account_num = a ∧ c.routing_num = r →
          check_contact_allowed (Except.ok cs) lr accountid req
            = Except.error (PyExn.valueError "account already exists as a contact")) ∧
        (¬(c.account_num = a ∧ c.routing_num = r) → c.label = l →
          check_contact_allowed (Except.ok cs) lr accountid req
            = Except.error (PyExn.valueError "contact already exists with that label")))) ∧
    (∀ (jwt : Jwt) (db : Db) (clean : String → String)
       (authHeader : Option String) (body : List (String × PyVal)) (claims : Claims),
      jwt.verify (tokenOfHeader authHeader) = Option.some claims →
      lookup claims "user" = Option.some (PyVal.str username) →
      lookup claims "acct" = Option.some accountid →
      sanitize clean body = req →
      validate_new_contact lr req = Except.ok () →
      a = accountid → r = PyVal.str lr →
      (add_contact jwt db lr clean username authHeader body).fst
        = Outcome.resp "may not add yourself to contacts" 409) := by
  refine ⟨?_, ?_, ?_, ?_⟩
  · intro hs
    rw [check_contact_allowed.eq_def, ha, hr]
    rw [if_pos hs]
  · intro hns hnone
    rw [check_contact_allowed.eq_def, ha, hr, hl]
    rw [if_neg hns]
    exact scanContacts_ok a r l cs hnone
  · intro hns pre c post hcs hpre
    constructor
    · intro hcp
      rw [check_contact_allowed.eq_def, ha, hr, hl, if_neg hns, hcs]
      exact scanContacts_first_pair a r l pre post c hpre hcp
    · intro hnp hlb
      rw [check_contact_allowed.eq_def, ha, hr, hl, if_neg hns, hcs]
      exact scanContacts_first_label a r l pre post c hpre hnp hlb
  · intro jwt db clean authHeader body claims hjv hju hjacct hbody hval haa hrr
    have hchk : check_contact_allowed (db.contacts username) lr accountid req
        = Except.error (PyExn.valueError "may not add yourself to contacts") := by
      rw [check_contact_allowed.eq_def, ha, hr]
      rw [if_pos ⟨haa, hrr⟩]
    rw [add_contact_fst]
    simp [addBody, hjv, hju, hbody, hval, hjacct, hchk, exceptToResponsePost]

/-- C3 witness: a stored contact with the same pair is rejected with
the account-conflict message, an empty contact list passes, at
concrete inputs where the candidate does not self-reference. -/
theorem C3_business_rule_order_witness :
    check_contact_allowed (Except.ok [contactPair]) "123456789"
        (PyVal.str "1234567890") bodyValid
      = Except.error (PyExn.valueError "account already exists as a contact") ∧
    check_contact_allowed (Except.ok []) "123456789"
        (PyVal.str "1234567890") bodyValid = Except.ok () := by
  constructor
  · exact ((C3_business_rule_order [contactPair] "123456789" "alice"
      (PyVal.str "1234567890") (PyVal.str "0000000001") (PyVal.str "111111111")
      (PyVal.str "Bob S") bodyValid (by decide) (by decide) (by decide)).2.2.1
      (by decide) [] contactPair [] rfl (by simp)).1 (by decide)
  · exact (C3_business_rule_order [] "123456789" "alice"
      (PyVal.str "1234567890") (PyVal.str "0000000001") (PyVal.str "111111111")
      (PyVal.str "Bob S") bodyValid (by decide) (by decide) (by decide)).2.1
      (by decide) (by simp)

/-- C4 (amended): every contact handed to the store append satisfies
a ten-digit account number, a nine-digit routing number, a label
matching the label pattern up to one admitted trailing newline, a
routing number different from the local one whenever is_external is
truthy, and ownership by the path username. -/
theorem C4_persisted_contact_invariants (jwt : Jwt) (db : Db) (lr : String)
    (clean : String → String) (username : String) (authHeader : Option String)
    (body : List (String × PyVal)) (c : Contact)
    (hc : c ∈ (add_contact jwt db lr clean username authHeader body).snd) :
    (∃ s, c.account_num = PyVal.str s ∧ pyDigits 10 s = true) ∧
    (∃ s, c.routing_num = PyVal.str s ∧ pyDigits 9 s = true) ∧
    (∃ s, c.label = PyVal.str s ∧ pyLabelMatch s = true) ∧
    (truthy c.is_external = true → c.routing_num ≠ PyVal.str lr) ∧
    c.username = username := by
  rw [add_contact_snd] at hc
  rcases addBody_shape jwt db lr clean username authHeader body with
    hnil | ⟨hone, hval, _⟩
  · rw [hnil] at hc; simp at hc
  · rw [hone] at hc
    have hcc : c = mkContact username (sanitize clean body) := by simpa using hc
    subst hcc
    obtain ⟨⟨sa, hsa, hda⟩, ⟨sr, hsr, hdr⟩, ⟨sl, hsl, hdl⟩, hx⟩ :=
      validate_ok_shape hval
    refine ⟨⟨sa, ?_, hda⟩, ⟨sr, ?_, hdr⟩, ⟨sl, ?_, hdl⟩, ?_, rfl⟩
    · simpa [mkContact] using hsa
    · simpa [mkContact] using hsr
    · simpa [mkContact] using hsl
    · intro ht
      have ht2 : truthy (lookupD (sanitize clean body) "is_external") = true := by
        simpa [mkContact] using ht
      simpa [mkContact] using hx ht2

/-- C4 witness: the contact persisted by a successful concrete write
satisfies the invariants. -/
theorem C4_persisted_contact_invariants_witness :
    (∃ s, contactPersisted.account_num = PyVal.str s ∧ pyDigits 10 s = true) ∧
    (∃ s, contactPersisted.routing_num = PyVal.str s ∧ pyDigits 9 s = true) ∧
    (∃ s, contactPersisted.label = PyVal.str s ∧ pyLabelMatch s = true) ∧
    (truthy contactPersisted.is_external = true →
      contactPersisted.routing_num ≠ PyVal.str "123456789") ∧
    contactPersisted.username = "alice" :=
  C4_persisted_contact_invariants jwtAlice emptyDb "123456789" cleanId "alice"
    (Option.some "Bearer tokA") bodyValid contactPersisted (by decide)

/-- C4 counterexample: a label consisting of one letter and a
trailing newline passes validation and is persisted by a successful
201 write, yet does not match the strict label pattern claimed as the
data-model invariant. -/
theorem C4_counterexample :
    (add_contact jwtAlice emptyDb "123456789" cleanId "alice"
        (Option.some "Bearer tokA") bodyNewline).fst = Outcome.okEmpty 201 ∧
    (add_contact jwtAlice emptyDb "123456789" cleanId "alice"
        (Option.some "Bearer tokA") bodyNewline).snd
      = [{ username := "alice", label := PyVal.str "A\n",
           account_num := PyVal.str "0000000001",
           routing_num := PyVal.str "111111111",
           is_external := PyVal.bool false }] ∧
    labelPattern "A\n" = false := by
  refine ⟨by decide, by decide, by decide⟩

/-- C5 (amended): when the store append fails, with a uniqueness
violation or any other storage error, the POST handler surfaces the
generic storage failure, 500 with body failed to add contact, not the
ConflictError outcome of the in-memory pre-check. -/
theorem C5_storage_uniqueness_surfaces_as_500 (jwt : Jwt) (db : Db) (lr : String)
    (clean : String → String) (username : String) (authHeader : Option String)
    (body : List (String × PyVal)) (c : Contact) (d : DbErr)
    (hlog : (add_contact jwt db lr clean username authHeader body).snd = [c])
    (herr : db.add c = Except.error d) :
    (add_contact jwt db lr clean username authHeader body).fst
      = Outcome.resp "failed to add contact" 500 := by
  rw [add_contact_snd] at hlog
  rcases addBody_shape jwt db lr clean username authHeader body with
    hnil | ⟨hone, hval, hres⟩
  · rw [hnil] at hlog; simp at hlog
  · rw [hone] at hlog
    have hcc : c = mkContact username (sanitize clean body) := by
      simpa using hlog.symm
    subst hcc
    rcases hres with ⟨hok, _⟩ | ⟨⟨d2, hderr⟩, hfst⟩
    · rw [herr] at hok; simp at hok
    · rw [add_contact_fst, hfst]; rfl

/-- C5 witness: with a store whose append reports a uniqueness
violation, a valid concrete write surfaces as the generic 500. -/
theorem C5_storage_uniqueness_surfaces_as_500_witness :
    (add_contact jwtAlice uniqueViolationDb "123456789" cleanId "alice"
        (Option.some "Bearer tokA") bodyValid).fst
      = Outcome.resp "failed to add contact" 500 :=
  C5_storage_uniqueness_surfaces_as_500 jwtAlice uniqueViolationDb "123456789"
    cleanId "alice" (Option.some "Bearer tokA") bodyValid contactPersisted
    DbErr.uniqueViolation (by decide) (by decide)

/-- C5 counterexample: a storage-level uniqueness violation is
answered with 500 failed to add contact, not with either 409
ConflictError outcome of the pre-check, contradicting the claim. -/
theorem C5_counterexample :
    (add_contact jwtAlice uniqueViolationDb "123456789" cleanId "alice"
        (Option.some "Bearer tokA") bodyValid).fst
      = Outcome.resp "failed to add contact" 500 ∧
    (add_contact jwtAlice uniqueViolationDb "123456789" cleanId "alice"
        (Option.some "Bearer tokA") bodyValid).fst
      ≠ Outcome.resp "account already exists as a contact" 409 ∧
    (add_contact jwtAlice uniqueViolationDb "123456789" cleanId "alice"
        (Option.some "Bearer tokA") bodyValid).fst
      ≠ Outcome.resp "contact already exists with that label" 409 := by
  refine ⟨by decide, by decide, by decide⟩

/-- C6 (amended): every POST response is one of: 201 with the empty
body, 401 authentication denied, 400 carrying a validator message,
409 carrying a conflict message, or 500 failed to add contact —
except that an uncaught exception (a missing user or acct claim, or a
TypeError from a non-string regex operand) escapes the handler
instead of producing any of the five. -/
theorem C6_response_forms (jwt : Jwt) (db : Db) (lr : String)
    (clean : String → String) (username : String) (authHeader : Option String)
    (body : List (String × PyVal)) :
    (add_contact jwt db lr clean username authHeader body).fst
      = Outcome.okEmpty 201 ∨
    (add_contact jwt db lr clean username authHeader body).fst
      = Outcome.resp "authentication denied" 401 ∨
    (∃ m, (add_contact jwt db lr clean username authHeader body).fst
        = Outcome.resp m 400 ∧
      validate_new_contact lr (sanitize clean body)
        = Except.error (PyExn.userWarning m)) ∨
    (∃ m, (add_contact jwt db lr clean username authHeader body).fst
        = Outcome.resp m 409) ∨
    (add_contact jwt db lr clean username authHeader body).fst
      = Outcome.resp "failed to add contact" 500 ∨
    (∃ e, (add_contact jwt db lr clean username authHeader body).fst
        = Outcome.crash e) := by
  rw [add_contact_fst]
  cases haf : (addBody jwt db lr clean username authHeader body).fst with
  | ok u => cases u; exact Or.inl rfl
  | error e =>
    rcases addBody_error_shape jwt db lr clean username authHeader body e haf with
      h | h | h | h | h | h | ⟨m, hm, hv2⟩ | ⟨m, hm⟩
    · subst h; exact Or.inr (Or.inl rfl)
    · subst h; exact Or.inr (Or.inl rfl)
    · subst h
      exact Or.inr (Or.inr (Or.inr (Or.inr (Or.inr ⟨PyExn.keyError "user", rfl⟩))))
    · subst h
      exact Or.inr (Or.inr (Or.inr (Or.inr (Or.inr ⟨PyExn.keyError "acct", rfl⟩))))
    · subst h; exact Or.inr (Or.inr (Or.inr (Or.inr (Or.inl rfl))))
    · subst h
      exact Or.inr (Or.inr (Or.inr (Or.inr (Or.inr ⟨PyExn.typeError, rfl⟩))))
    · subst hm; exact Or.inr (Or.inr (Or.inl ⟨m, rfl, hv2⟩))
    · subst hm; exact Or.inr (Or.inr (Or.inr (Or.inl ⟨m, rfl⟩)))

/-- C6 counterexample: a verified token whose claim set lacks the
user key makes the POST handler raise an uncaught KeyError, an
outcome that is none of the five claimed response forms. -/
theorem C6_counterexample :
    (add_contact jwtNoUser emptyDb "123456789" cleanId "alice"
        (Option.some "Bearer tokB") bodyValid).fst
      = Outcome.crash (PyExn.keyError "user") ∧
    (add_contact jwtNoUser emptyDb "123456789" cleanId "alice"
        (Option.some "Bearer tokB") bodyValid).fst ≠ Outcome.okEmpty 201 ∧
    (add_contact jwtNoUser emptyDb "123456789" cleanId "alice"
        (Option.some "Bearer tokB") bodyValid).fst
      ≠ Outcome.resp "authentication denied" 401 ∧
    (add_contact jwtNoUser emptyDb "123456789" cleanId "alice"
        (Option.some "Bearer tokB") bodyValid).fst
      ≠ Outcome.resp "failed to add contact" 500 := by
  refine ⟨by decide, by decide, by decide, by decide⟩

/-- Folding the space-splitting step over a space-free list appends
the whole list to the accumulator. -/
theorem foldl_space_free (ys : List Char) (h : ' ' ∉ ys) (acc : List Char) :
    ys.foldl (fun acc2 c => if c = ' ' then [] else acc2 ++ [c]) acc
      = acc ++ ys := by
  induction ys generalizing acc with
  | nil => simp
  | cons c rest ih =>
    have hc : ¬c = ' ' := fun hc => h (by rw [← hc]; exact List.mem_cons_self c rest)
    rw [List.foldl_cons, if_neg hc]
    rw [ih (fun hm => h (List.mem_cons_of_mem c hm))]
    simp

/-- The part after the last space of a space-free list is the list
itself. -/
theorem lastFieldAux_space_free (ys : List Char) (h : ' ' ∉ ys) :
    lastFieldAux ys = ys := by
  unfold lastFieldAux
  rw [foldl_space_free ys h []]
  rfl

/-- The part after the last space is unchanged by anything before a
space. -/
theorem lastFieldAux_space_split (xs ys : List Char) :
    lastFieldAux (xs ++ ' ' :: ys) = lastFieldAux ys := by
  unfold lastFieldAux
  rw [List.foldl_append, List.foldl_cons]
  simp

/-- C7 (amended): the token is the part of the Authorization header
value after its last space character, so a single-space scheme word
is ignored and a space-free token is recovered exactly; an absent
header yields the empty token, which always fails verification and
yields the authentication-denied outcome on both endpoints. -/
theorem C7_token_extraction (jwt : Jwt) (db : Db) (lr : String)
    (clean : String → String) (username : String)
    (body : List (String × PyVal)) (scheme tok : String)
    (htok : ' ' ∉ tok.data) :
    tokenOfHeader Option.none = "" ∧
    tokenOfHeader (Option.some (scheme ++ " " ++ tok)) = tok ∧
    get_contacts jwt db username Option.none
      = Outcome.resp "authentication denied" 401 ∧
    (add_contact jwt db lr clean username Option.none body).fst
      = Outcome.resp "authentication denied" 401 := by
  refine ⟨rfl, ?_, ?_, ?_⟩
  · have hdata : (scheme ++ " " ++ tok).data = scheme.data ++ ' ' :: tok.data := by
      have h1 : (" " : String).data = [' '] := rfl
      simp [String.data_append, h1]
    have hne : (scheme ++ " " ++ tok) ≠ "" := by
      intro h0
      have h2 := congrArg String.data h0
      rw [hdata] at h2
      simp at h2
    rw [tokenOfHeader, if_neg hne, hdata, lastFieldAux_space_split,
      lastFieldAux_space_free tok.data htok]
  · simp only [get_contacts, getBody, tokenOfHeader, jwt.empty_fails]; rfl
  · rw [add_contact_fst]
    simp only [addBody, tokenOfHeader, jwt.empty_fails]; rfl

/-- C7 witness: the scheme word Bearer followed by one space and a
space-free token is stripped to the token, and an absent header is
denied on both endpoints. -/
theorem C7_token_extraction_witness :
    tokenOfHeader Option.none = "" ∧
    tokenOfHeader (Option.some ("Bearer" ++ " " ++ "tokA")) = "tokA" ∧
    get_contacts jwtAlice emptyDb "alice" Option.none
      = Outcome.resp "authentication denied" 401 ∧
    (add_contact jwtAlice emptyDb "123456789" cleanId "alice" Option.none
        bodyValid).fst
      = Outcome.resp "authentication denied" 401 :=
  C7_token_extraction jwtAlice emptyDb "123456789" cleanId "alice" bodyValid
    "Bearer" "tokA" (by decide)

/-- C7 counterexample: a header whose only whitespace is a tab is not
split at all — the submitted token is the whole header value, not
the last whitespace-separated segment the claim states. -/
theorem C7_counterexample :
    tokenOfHeader (Option.some "Bearer\tabc") = "Bearer\tabc" ∧
    lastWhitespaceSegment "Bearer\tabc" = "abc" ∧
    ("Bearer\tabc" : String) ≠ "abc" := by
  refine ⟨by decide, by decide, by decide⟩

/-- C8: on every POST whose outcome is a 401, 400 or 409 response the
store append is never invoked, any non-201 outcome leaves the
modelled store state unchanged, and the handler only ever appends a
single contact owned by the path username, never mutating or deleting
an existing one. -/
theorem C8_failed_requests_do_not_append (jwt : Jwt) (db : Db) (lr : String)
    (clean : String → String) (username : String) (authHeader : Option String)
    (body : List (String × PyVal)) (st : String → List Contact) :
    (∀ b : String,
      ((add_contact jwt db lr clean username authHeader body).fst
          = Outcome.resp b 401 ∨
       (add_contact jwt db lr clean username authHeader body).fst
          = Outcome.resp b 400 ∨
       (add_contact jwt db lr clean username authHeader body).fst
          = Outcome.resp b 409) →
      (add_contact jwt db lr clean username authHeader body).snd = []) ∧
    ((add_contact jwt db lr clean username authHeader body).fst
        ≠ Outcome.okEmpty 201 →
      storeAfter db st (add_contact jwt db lr clean username authHeader body).snd
        = st) ∧
    ((add_contact jwt db lr clean username authHeader body).snd = [] ∨
      ∃ c, (add_contact jwt db lr clean username authHeader body).snd = [c] ∧
        c.username = username) := by
  rcases addBody_shape jwt db lr clean username authHeader body with
    hnil | ⟨hone, hval, hres⟩
  · refine ⟨fun b _ => by rw [add_contact_snd, hnil], ?_,
      Or.inl (by rw [add_contact_snd, hnil])⟩
    intro _
    funext u2
    rw [add_contact_snd, hnil]
    simp [storeAfter]
  · have hsnd : (add_contact jwt db lr clean username authHeader body).snd
        = [mkContact username (sanitize clean body)] := by
      rw [add_contact_snd, hone]
    rcases hres with ⟨hok, hfst⟩ | ⟨⟨d, hderr⟩, hfst⟩
    · have hfst2 : (add_contact jwt db lr clean username authHeader body).fst
          = Outcome.okEmpty 201 := by rw [add_contact_fst, hfst]
      refine ⟨?_, ?_, Or.inr ⟨_, hsnd, by simp [mkContact]⟩⟩
      · intro b hb
        rcases hb with hb | hb | hb <;> rw [hfst2] at hb <;>
          exact absurd hb (by simp)
      · intro hne2; exact absurd hfst2 hne2
    · have hfst2 : (add_contact jwt db lr clean username authHeader body).fst
          = Outcome.resp "failed to add contact" 500 := by
        rw [add_contact_fst, hfst]; rfl
      refine ⟨?_, ?_, Or.inr ⟨_, hsnd, by simp [mkContact]⟩⟩
      · intro b hb
        rcases hb with hb | hb | hb <;> rw [hfst2] at hb <;>
          exact absurd (Outcome.resp.inj hb).2 (by decide)
      · intro _
        funext u2
        rw [hsnd]
        simp [storeAfter, hderr, exceptIsOk]

/-- C8 witness: a concrete denied request appends nothing and leaves
the modelled empty store unchanged. -/
theorem C8_failed_requests_do_not_append_witness :
    (add_contact jwtBob emptyDb "123456789" cleanId "alice"
        (Option.some "Bearer tokD") bodyValid).snd = [] ∧
    storeAfter emptyDb (fun _ => [])
        (add_contact jwtBob emptyDb "123456789" cleanId "alice"
          (Option.some "Bearer tokD") bodyValid).snd = (fun _ => []) :=
  ⟨(C8_failed_requests_do_not_append jwtBob emptyDb "123456789" cleanId "alice"
      (Option.some "Bearer tokD") bodyValid (fun _ => [])).1
      "authentication denied" (Or.inl (by decide)),
   (C8_failed_requests_do_not_append jwtBob emptyDb "123456789" cleanId "alice"
      (Option.some "Bearer tokD") bodyValid (fun _ => [])).2.1 (by decide)⟩

/-- C9 (amended): with a verified token whose claim set lacks the
user key, both handlers raise an uncaught KeyError; with a verified
matching user claim but no acct key, the POST handler raises an
uncaught KeyError exactly when the sanitized payload passes
validation — an invalid payload fails first with its 400 response. -/
theorem C9_missing_claims_crash (jwt : Jwt) (db : Db) (lr : String)
    (clean : String → String) (username : String) (authHeader : Option String)
    (body : List (String × PyVal)) (claims : Claims)
    (hv : jwt.verify (tokenOfHeader authHeader) = Option.some claims) :
    (lookup claims "user" = Option.none →
      get_contacts jwt db username authHeader
        = Outcome.crash (PyExn.keyError "user") ∧
      (add_contact jwt db lr clean username authHeader body).fst
        = Outcome.crash (PyExn.keyError "user")) ∧
    (lookup claims "user" = Option.some (PyVal.str username) →
     lookup claims "acct" = Option.none →
     validate_new_contact lr (sanitize clean body) = Except.ok () →
      (add_contact jwt db lr clean username authHeader body).fst
        = Outcome.crash (PyExn.keyError "acct")) := by
  constructor
  · intro hu
    constructor
    · simp only [get_contacts, getBody, hv, hu]; rfl
    · rw [add_contact_fst]; simp only [addBody, hv, hu]; rfl
  · intro hu hacct hval
    rw [add_contact_fst]
    simp [addBody, hv, hu, hval, hacct, exceptToResponsePost]

/-- C9 witness: a claim set without user crashes both endpoints with
KeyError user, and a claim set without acct crashes a POST with a
valid payload with KeyError acct. -/
theorem C9_missing_claims_crash_witness :
    get_contacts jwtNoUser emptyDb "alice" (Option.some "Bearer tokB")
      = Outcome.crash (PyExn.keyError "user") ∧
    (add_contact jwtNoUser emptyDb "123456789" cleanId "alice"
        (Option.some "Bearer tokB") bodyValid).fst
      = Outcome.crash (PyExn.keyError "user") ∧
    (add_contact jwtNoAcct emptyDb "123456789" cleanId "alice"
        (Option.some "Bearer tokC") bodyValid).fst
      = Outcome.crash (PyExn.keyError "acct") :=
  ⟨((C9_missing_claims_crash jwtNoUser emptyDb "123456789" cleanId "alice"
      (Option.some "Bearer tokB") bodyValid [("role", PyVal.str "x")]
      (by decide)).1 (by decide)).1,
   ((C9_missing_claims_crash jwtNoUser emptyDb "123456789" cleanId "alice"
      (Option.some "Bearer tokB") bodyValid [("role", PyVal.str "x")]
      (by decide)).1 (by decide)).2,
   (C9_missing_claims_crash jwtNoAcct emptyDb "123456789" cleanId "alice"
      (Option.some "Bearer tokC") bodyValid [("user", PyVal.str "alice")]
      (by decide)).2 (by decide) (by decide) (by decide)⟩

/-- C9 counterexample: a POST whose verified claim set lacks the acct
key but whose payload is invalid is answered 400 missing required
field(s) — validation fails before the acct access — not with the
uncaught KeyError the claim states for every such request. -/
theorem C9_counterexample :
    (add_contact jwtNoAcct emptyDb "123456789" cleanId "alice"
        (Option.some "Bearer tokC") []).fst
      = Outcome.resp "missing required field(s)" 400 ∧
    (add_contact jwtNoAcct emptyDb "123456789" cleanId "alice"
        (Option.some "Bearer tokC") []).fst
      ≠ Outcome.crash (PyExn.keyError "acct") := by
  refine ⟨by decide, by decide⟩

/-- C10: with the other three fields valid, any present is_external
value of any type passes validation exactly when it is falsy or the
routing number differs from the local one — its type is never
checked — and the value of the sanitized body, sanitized if a string
and verbatim otherwise, is persisted as the is_external field of the
stored contact. -/
theorem C10_is_external_untyped (lr : String) (req : List (String × PyVal))
    (a r l : String) (v : PyVal)
    (ha : lookup req "account_num" = Option.some (PyVal.str a))
    (hda : pyDigits 10 a = true)
    (hr : lookup req "routing_num" = Option.some (PyVal.str r))
    (hdr : pyDigits 9 r = true)
    (hl : lookup req "label" = Option.some (PyVal.str l))
    (hdl : pyLabelMatch l = true)
    (hv : lookup req "is_external" = Option.some v) :
    (validate_new_contact lr req = Except.ok () ↔ (truthy v = true → r ≠ lr)) ∧
    (∀ (jwt : Jwt) (db : Db) (clean : String → String) (username : String)
       (authHeader : Option String) (body : List (String × PyVal)) (c : Contact),
      sanitize clean body = req →
      c ∈ (add_contact jwt db lr clean username authHeader body).snd →
      c.is_external = v) ∧
    (∀ (clean : String → String) (body2 : List (String × PyVal)) (k : String),
      lookup (sanitize clean body2) k
        = Option.map (sanitizeVal clean) (lookup body2 k)) := by
  have hmiss : requiredFields.any (fun f => !containsKey req f) = false := by
    simp [requiredFields, containsKey, ha, hr, hl, hv]
  have hda2 : lookupD req "account_num" = PyVal.str a := by
    rw [lookupD, ha]; rfl
  have hdr2 : lookupD req "routing_num" = PyVal.str r := by
    rw [lookupD, hr]; rfl
  have hdl2 : lookupD req "label" = PyVal.str l := by
    rw [lookupD, hl]; rfl
  have hdx2 : lookupD req "is_external" = v := by
    rw [lookupD, hv]; rfl
  have hvalidate : validate_new_contact lr req
      = (if (truthy v && (PyVal.str r == PyVal.str lr)) then
          Except.error (PyExn.userWarning "invalid routing number")
        else Except.ok ()) := by
    rw [validate_new_contact, if_neg (by simp [hmiss])]
    rw [hda2, hdr2, hdl2, hdx2]
    simp [checkDigits, checkLabel, hda, hdr, hdl]
  refine ⟨?_, ?_, ?_⟩
  · rw [hvalidate]
    cases hext : (truthy v && (PyVal.str r == PyVal.str lr)) with
    | true =>
      rw [Bool.and_eq_true] at hext
      have h2 : r = lr := by
        have h3 := hext.2
        rw [beq_iff_eq] at h3
        exact PyVal.str.inj h3
      constructor
      · intro h0; simp at h0
      · intro hrt; exact absurd h2 (hrt hext.1)
    | false =>
      constructor
      · intro _ ht hre
        rw [ht, hre] at hext
        simp at hext
      · intro _; simp
  · intro jwt db clean username authHeader body c hbody hc
    rw [add_contact_snd] at hc
    rcases addBody_shape jwt db lr clean username authHeader body with
      hnil | ⟨hone, _, _⟩
    · rw [hnil] at hc; simp at hc
    · rw [hone] at hc
      have hcc : c = mkContact username (sanitize clean body) := by simpa using hc
      subst hcc
      simp [mkContact, hbody, hdx2]
  · exact lookup_sanitize

/-- C10 witness: an integer is_external with a non-local routing
number passes validation, while the non-empty string false with the
local routing number is treated as truthy and rejected. -/
theorem C10_is_external_untyped_witness :
    validate_new_contact "123456789" reqIntExternal = Except.ok () ∧
    validate_new_contact "111111111" reqStrFalse ≠ Except.ok () := by
  constructor
  · exact (C10_is_external_untyped "123456789" reqIntExternal "0000000001"
      "111111111" "Bob S" (PyVal.int 7) (by decide) (by decide) (by decide)
      (by decide) (by decide) (by decide) (by decide)).1.mpr
      (fun _ => by decide)
  · intro hok
    exact ((C10_is_external_untyped "111111111" reqStrFalse "0000000001"
      "111111111" "Bob S" (PyVal.str "false") (by decide) (by decide) (by decide)
      (by decide) (by decide) (by decide) (by decide)).1.mp hok (by decide)) rfl

end Contacts
